import Mathlib

/-
Verification of the cubic-spline signed-distance evaluator (sdf/spline.go).

The Go code computes with float64; here every float64 is embedded as a
rational number (ℚ), so all field operations are exact.  Division in ℚ is
total (x / 0 = 0); wherever the Go code can divide by zero this is noted
at the definition.  Fallible code (Go `panic`) is embedded as `Option`,
with `none` standing for a panic.

Helper code of the repository that lives outside sdf/spline.go
(the V2/V3 vector types, Abs, Clamp, ZeroSmall, EPSILON) is modelled from
the spec and marked as such in doc comments.
-/

namespace Sdf

/-- Modelled from the spec: 2D vector of the sdf package (a plain pair of
coordinates); not part of sdf/spline.go. -/
structure V2 where
  X : ℚ
  Y : ℚ
deriving DecidableEq, Repr

/-- Modelled from the spec: 3D vector of the sdf package, used by
`TriDiagonal` as one matrix row (X = sub-diagonal, Y = main diagonal,
Z = super-diagonal); not part of sdf/spline.go. -/
structure V3 where
  X : ℚ
  Y : ℚ
  Z : ℚ
deriving DecidableEq, Repr

/-- Zero `V2`, used as the out-of-range default for list indexing
(the Go code panics on out-of-range access; all indices used are in range). -/
def v2z : V2 := ⟨0, 0⟩

/-- Zero `V3`, used as the out-of-range default for list indexing. -/
def v3z : V3 := ⟨0, 0, 0⟩

/-- Modelled from the spec: absolute value on float64 (`Abs` of the sdf
package); not part of sdf/spline.go. -/
def Abs (x : ℚ) : ℚ := |x|

/-- Modelled from the spec: `Clamp x a b` clamps `x` into the interval
`[a, b]`; not part of sdf/spline.go. -/
def Clamp (x a b : ℚ) : ℚ := if x < a then a else if x > b then b else x

/-- Modelled from the spec: the fixed small fraction below which
coefficients are snapped to zero (`EPSILON` of the sdf package);
not part of sdf/spline.go. -/
def EPSILON : ℚ := 1 / 1000000000

/-- Modelled from the spec: `ZeroSmall x y ε` replaces `x` by zero when its
magnitude is smaller than the fraction `ε` of the reference magnitude `y`;
not part of sdf/spline.go.  (In the Go code `Abs x / y` with `y = 0` gives
NaN and the comparison is false, but then `x = 0` as well at every use
site, so the ℚ convention `0 / 0 = 0` agrees on all reachable inputs.) -/
def ZeroSmall (x y ε : ℚ) : ℚ := if Abs x / y < ε then 0 else x

/-! ### Tridiagonal solver (sdf/spline.go, `TriDiagonal`)

The elimination and back-substitution loops are embedded as recursions on
the row index over coefficient streams `a b c : ℕ → ℚ` (sub-, main-,
super-diagonal) and `d : ℕ → ℚ` (right-hand side), read off the input
lists with a zero default. -/

/-- Forward-elimination coefficients `c'` of the Thomas algorithm:
`cp 0 = c 0 / b 0`, `cp (i+1) = c (i+1) / (b (i+1) - a (i+1) * cp i)`. -/
def cp (a b c : ℕ → ℚ) : ℕ → ℚ
  | 0 => c 0 / b 0
  | i + 1 => c (i + 1) / (b (i + 1) - a (i + 1) * cp a b c i)

/-- The denominator checked by the Go elimination loop at row `i ≥ 1`. -/
def elimDenom (a b c : ℕ → ℚ) (i : ℕ) : ℚ :=
  b i - a i * cp a b c (i - 1)

/-- Forward-elimination partial solutions (`x` before back substitution):
`xp 0 = d 0 / b 0`, `xp (i+1) = (d (i+1) - a (i+1) * xp i) / denom`. -/
def xp (a b c d : ℕ → ℚ) : ℕ → ℚ
  | 0 => d 0 / b 0
  | i + 1 => (d (i + 1) - a (i + 1) * xp a b c d i) /
      (b (i + 1) - a (i + 1) * cp a b c i)

/-- Back substitution, indexed from the last row: `xsolAux n j` is the
solution entry at row `n - 1 - j`. -/
def xsolAux (a b c d : ℕ → ℚ) (n : ℕ) : ℕ → ℚ
  | 0 => xp a b c d (n - 1)
  | j + 1 => xp a b c d (n - 2 - j) - cp a b c (n - 2 - j) * xsolAux a b c d n j

/-- The solution entry at row `i` produced by back substitution. -/
def xsol (a b c d : ℕ → ℚ) (n : ℕ) (i : ℕ) : ℚ :=
  xsolAux a b c d n (n - 1 - i)

/-- Sub-diagonal entry of row `j` (Go `m[j].X`). -/
def subDiag (m : List V3) (j : ℕ) : ℚ := (m.getD j v3z).X

/-- Main-diagonal entry of row `j` (Go `m[j].Y`). -/
def mainDiag (m : List V3) (j : ℕ) : ℚ := (m.getD j v3z).Y

/-- Super-diagonal entry of row `j` (Go `m[j].Z`). -/
def superDiag (m : List V3) (j : ℕ) : ℚ := (m.getD j v3z).Z

/-- Right-hand-side entry `j` (Go `d[j]`). -/
def rhs (d : List ℚ) (j : ℕ) : ℚ := d.getD j 0

/-- The elimination-loop check of `TriDiagonal`: every denominator met
during forward elimination is nonzero. -/
def denomCheck (m : List V3) : Bool :=
  (List.range' 1 (m.length - 1)).all fun i =>
    decide (elimDenom (subDiag m) (mainDiag m) (superDiag m) i ≠ 0)

/-- Embedding of Go `TriDiagonal(m, d)` (sdf/spline.go lines 27-57).
`none` stands for a panic: the explicit size/boundary/pivot panics of the
Go code, plus the index-out-of-range panic on an empty matrix. -/
def TriDiagonal (m : List V3) (d : List ℚ) : Option (List ℚ) :=
  if d.length ≠ m.length then none
  else if m.length = 0 then none
  else if subDiag m 0 ≠ 0 ∨ superDiag m (m.length - 1) ≠ 0 then none
  else if mainDiag m 0 = 0 then none
  else if denomCheck m then
    some (List.ofFn fun i : Fin m.length =>
      xsol (subDiag m) (mainDiag m) (superDiag m) (rhs d) m.length i)
  else none

/-- The panic conditions of `TriDiagonal` named by the spec: bad boundary
coefficients, a zero leading pivot, or a zero denominator during
elimination. -/
def TriDiagonalFails (m : List V3) : Prop :=
  subDiag m 0 ≠ 0 ∨ superDiag m (m.length - 1) ≠ 0 ∨ mainDiag m 0 = 0 ∨
    ∃ i ∈ List.range' 1 (m.length - 1),
      elimDenom (subDiag m) (mainDiag m) (superDiag m) i = 0

/-- `x` solves the tridiagonal system `M·x = d`: row 0 reads
`b₀x₀ + c₀x₁ = d₀` and row `i ≥ 1` reads
`aᵢx_{i-1} + bᵢxᵢ + cᵢx_{i+1} = dᵢ` (out-of-range entries read as 0 and
are multiplied by the 0 boundary coefficients). -/
def solvesTriDiag (m : List V3) (d : List ℚ) (x : List ℚ) : Prop :=
  mainDiag m 0 * x.getD 0 0 + superDiag m 0 * x.getD 1 0 = rhs d 0 ∧
  ∀ i, 1 ≤ i → i < m.length →
    subDiag m i * x.getD (i - 1) 0 + mainDiag m i * x.getD i 0 +
      superDiag m i * x.getD (i + 1) 0 = rhs d i

/-! ### Cubic polynomial (sdf/spline.go, `CubicPolynomial`) -/

/-- One scalar cubic `a + b t + c t² + d t³` (sdf/spline.go lines 61-63). -/
structure CubicPolynomial where
  a : ℚ
  b : ℚ
  c : ℚ
  d : ℚ
deriving DecidableEq, Repr

/-- Function value (Go `f0`, Horner form `a + t*(b + t*(c + d*t))`). -/
def CubicPolynomial.f0 (p : CubicPolynomial) (t : ℚ) : ℚ :=
  p.a + t * (p.b + t * (p.c + p.d * t))

/-- First derivative (Go `f1`, `b + t*(2c + 3d*t)`). -/
def CubicPolynomial.f1 (p : CubicPolynomial) (t : ℚ) : ℚ :=
  p.b + t * (2 * p.c + 3 * p.d * t)

/-- Second derivative (Go `f2`, `2c + 6d*t`). -/
def CubicPolynomial.f2 (p : CubicPolynomial) (t : ℚ) : ℚ :=
  2 * p.c + 6 * p.d * t

/-- Embedding of Go `(*CubicPolynomial).Set` (sdf/spline.go lines 81-92):
Hermite fit from endpoint values and derivatives, then snap coefficients
that are small relative to the coefficient magnitude sum to zero.
The Go method mutates its receiver; here it returns the new value. -/
def CubicPolynomial.Set (y0 y1 D0 D1 : ℚ) : CubicPolynomial :=
  let a := y0
  let b := D0
  let c := 3 * (y1 - y0) - 2 * D0 - D1
  let d := 2 * (y0 - y1) + D0 + D1
  let sum := Abs a + Abs b + Abs c + Abs d
  ⟨ZeroSmall a sum EPSILON, ZeroSmall b sum EPSILON,
   ZeroSmall c sum EPSILON, ZeroSmall d sum EPSILON⟩

/-- The coefficient magnitude sum computed inside `CubicPolynomial.Set`
before snapping; the snapping error of each coefficient is below
`EPSILON` times this value. -/
def fitSum (y0 y1 D0 D1 : ℚ) : ℚ :=
  Abs y0 + Abs D0 + Abs (3 * (y1 - y0) - 2 * D0 - D1) +
    Abs (2 * (y0 - y1) + D0 + D1)

/-! ### Cubic spline segment (sdf/spline.go, `CubicSpline`) -/

/-- One 2D spline segment (sdf/spline.go lines 102-106): index within the
owning set, the two end knots, and one cubic polynomial per axis. -/
structure CubicSpline where
  idx : ℕ
  p0 : V2
  p1 : V2
  px : CubicPolynomial
  py : CubicPolynomial
deriving DecidableEq, Repr

/-- Zero segment, used as the out-of-range default for list indexing. -/
def segDefault : CubicSpline := ⟨0, v2z, v2z, ⟨0, 0, 0, 0⟩, ⟨0, 0, 0, 0⟩⟩

/-- Segment position (Go `f0`). -/
def CubicSpline.f0 (s : CubicSpline) (t : ℚ) : V2 :=
  ⟨s.px.f0 t, s.py.f0 t⟩

/-- Segment first derivative (Go `f1`). -/
def CubicSpline.f1 (s : CubicSpline) (t : ℚ) : V2 :=
  ⟨s.px.f1 t, s.py.f1 t⟩

/-- Segment second derivative (Go `f2`). -/
def CubicSpline.f2 (s : CubicSpline) (t : ℚ) : V2 :=
  ⟨s.px.f2 t, s.py.f2 t⟩

/-- Newton-Raphson relative tolerance (sdf/spline.go line 137). -/
def NR_TOLERANCE : ℚ := 1 / 10000

/-- Newton-Raphson iteration cap (sdf/spline.go line 138). -/
def NR_MAXITERS : ℕ := 10

/-- Embedding of Go `(*CubicSpline).NR_Iterate` (sdf/spline.go lines
140-155): one Newton step minimising squared distance to `p`.  The Go
division is unguarded; in ℚ a zero denominator yields `t - num / 0 = t`
where Go would produce ±Inf or NaN. -/
def CubicSpline.NR_Iterate (s : CubicSpline) (t : ℚ) (p : V2) : ℚ :=
  let f0 := s.f0 t
  let f1 := s.f1 t
  let f2 := s.f2 t
  let dx := f0.X - p.X
  let dy := f0.Y - p.Y
  t - (dx * f1.X + dy * f1.Y) / (dx * f2.X + f1.X * f1.X + dy * f2.Y + f1.Y * f1.Y)

/-! ### Spline set (sdf/spline.go, `CubicSplineSDF2`)

The cached bounding box field `bb` of the Go struct is not modelled: its
computation takes square roots of discriminants (irrational), and no
claim concerns it.  No other Go field is omitted. -/

/-- The spline set (sdf/spline.go lines 159-163, minus the cached `bb`). -/
structure CubicSplineSDF2 where
  spline : List CubicSpline
  maxiters : ℕ
deriving DecidableEq, Repr

/-- The segment at slice position `i` (Go `&s.spline[i]`; out-of-range
reads, which panic in Go, return the zero segment). -/
def segAt (s : CubicSplineSDF2) (i : ℕ) : CubicSpline :=
  s.spline.getD i segDefault

/-- Embedding of Go `(*CubicSplineSDF2).Find` (sdf/spline.go lines
166-177): clamp the global parameter into `[0, n]`, split into segment
index and local parameter, and land on the last segment with local `t = 1`
at the upper end.  The Go function returns a segment pointer; here the
slice position is returned.  (For an empty spline set Go would panic with
an index out of range; the ℕ convention `0 - 1 = 0` is used instead, and
every claim about `Find` concerns nonempty sets.) -/
def CubicSplineSDF2.Find (s : CubicSplineSDF2) (t : ℚ) : ℕ × ℚ :=
  let n := s.spline.length
  let tc := Clamp t 0 n
  let i := (Int.floor tc).toNat
  let tl := tc - i
  if i = n then (n - 1, 1) else (i, tl)

/-- Go `(*CubicSplineSDF2).F0`: position at a global parameter. -/
def CubicSplineSDF2.F0 (s : CubicSplineSDF2) (t : ℚ) : V2 :=
  let ft := s.Find t
  (segAt s ft.1).f0 ft.2

/-- Go `(*CubicSplineSDF2).D0`: squared distance between `p` and the curve
point at global parameter `t`. -/
def CubicSplineSDF2.D0 (s : CubicSplineSDF2) (t : ℚ) (p : V2) : ℚ :=
  let f0 := s.F0 t
  let dx := f0.X - p.X
  let dy := f0.Y - p.Y
  dx * dx + dy * dy

/-! ### Construction (sdf/spline.go, `CubicSpline2D`) -/

/-- The tridiagonal matrix built by `CubicSpline2D` for `n` knots
(sdf/spline.go lines 229-244): interior rows `(1,4,1)`, first row
`(0,2,1)`, last row `(1,2,0)`. -/
def naturalM (n : ℕ) : List V3 :=
  List.ofFn fun i : Fin n =>
    if (i : ℕ) = 0 then ⟨0, 2, 1⟩
    else if (i : ℕ) = n - 1 then ⟨1, 2, 0⟩
    else ⟨1, 4, 1⟩

/-- The x-axis right-hand side built by `CubicSpline2D`
(sdf/spline.go lines 230-244). -/
def rhsX (knot : List V2) : List ℚ :=
  List.ofFn fun i : Fin knot.length =>
    if (i : ℕ) = 0 then 3 * ((knot.getD 1 v2z).X - (knot.getD 0 v2z).X)
    else if (i : ℕ) = knot.length - 1 then
      3 * ((knot.getD (knot.length - 1) v2z).X - (knot.getD (knot.length - 2) v2z).X)
    else 3 * ((knot.getD ((i : ℕ) + 1) v2z).X - (knot.getD ((i : ℕ) - 1) v2z).X)

/-- The y-axis right-hand side built by `CubicSpline2D`. -/
def rhsY (knot : List V2) : List ℚ :=
  List.ofFn fun i : Fin knot.length =>
    if (i : ℕ) = 0 then 3 * ((knot.getD 1 v2z).Y - (knot.getD 0 v2z).Y)
    else if (i : ℕ) = knot.length - 1 then
      3 * ((knot.getD (knot.length - 1) v2z).Y - (knot.getD (knot.length - 2) v2z).Y)
    else 3 * ((knot.getD ((i : ℕ) + 1) v2z).Y - (knot.getD ((i : ℕ) - 1) v2z).Y)

/-- The segment list built by `CubicSpline2D` (sdf/spline.go lines
251-258) from the knots and the two solved derivative vectors. -/
def mkSegments (knot : List V2) (xx xy : List ℚ) : List CubicSpline :=
  List.ofFn fun i : Fin (knot.length - 1) =>
    ⟨i, knot.getD i v2z, knot.getD ((i : ℕ) + 1) v2z,
     CubicPolynomial.Set (knot.getD i v2z).X (knot.getD ((i : ℕ) + 1) v2z).X
       (xx.getD i 0) (xx.getD ((i : ℕ) + 1) 0),
     CubicPolynomial.Set (knot.getD i v2z).Y (knot.getD ((i : ℕ) + 1) v2z).Y
       (xy.getD i 0) (xy.getD ((i : ℕ) + 1) 0)⟩

/-- Embedding of Go `CubicSpline2D(knot)` (sdf/spline.go lines 220-266):
`none` stands for the `panic` on fewer than 2 knots, or for a panic inside
`TriDiagonal` (which in fact never fires for these matrices). -/
def CubicSpline2D (knot : List V2) : Option CubicSplineSDF2 :=
  if knot.length < 2 then none
  else
    match TriDiagonal (naturalM knot.length) (rhsX knot),
        TriDiagonal (naturalM knot.length) (rhsY knot) with
    | some xx, some xy => some ⟨mkSegments knot xx xy, NR_MAXITERS⟩
    | _, _ => none

/-- The solved x-axis first-derivative vector of a knot list (the result
of the first `TriDiagonal` call inside `CubicSpline2D`). -/
def splineDerivsX (knot : List V2) : List ℚ :=
  (TriDiagonal (naturalM knot.length) (rhsX knot)).getD []

/-- The solved y-axis first-derivative vector of a knot list. -/
def splineDerivsY (knot : List V2) : List ℚ :=
  (TriDiagonal (naturalM knot.length) (rhsY knot)).getD []

/-- Entry `j` of the solved x-axis derivative vector. -/
def dvX (knot : List V2) (j : ℕ) : ℚ := (splineDerivsX knot).getD j 0

/-- Entry `j` of the solved y-axis derivative vector. -/
def dvY (knot : List V2) (j : ℕ) : ℚ := (splineDerivsY knot).getD j 0

/-! ### Distance query (sdf/spline.go, `Evaluate`) -/

/-- The initial state of the `Evaluate` loop (sdf/spline.go lines
270-272): `n := 9` is hardcoded (the comment `// len(s.spline)` records
the intended value), and the start state is `s.Find(float64(n) / 2)`. -/
def evalInit (s : CubicSplineSDF2) : ℕ × ℚ :=
  s.Find (9 / 2)

/-- One trip through the `Evaluate` loop body (sdf/spline.go lines
277-305), given the current slice position and local parameter.  Returns
the next state and `true` when the Go code executes `break`.  The
last-segment test compares the segment's `idx` field against the
hardcoded `n - 1 = 8`, exactly as the Go code does. -/
def evalStep (s : CubicSplineSDF2) (p : V2) (st : ℕ × ℚ) : (ℕ × ℚ) × Bool :=
  let pos := st.1
  let t0 := st.2
  let cs := segAt s pos
  let t := cs.NR_Iterate t0 p
  if t < 0 then
    if cs.idx = 0 then ((pos, 0), true)
    else (s.Find ((cs.idx : ℚ) + t), false)
  else if t > 1 then
    if cs.idx = 9 - 1 then ((pos, 1), true)
    else (s.Find ((cs.idx : ℚ) + t), false)
  else
    ((pos, t), decide (Abs (t - t0) < NR_TOLERANCE * Abs t))

/-- The `Evaluate` loop run for at most `k` iterations, stopping early on
`break`. -/
def evalLoop (s : CubicSplineSDF2) (p : V2) : ℕ → ℕ × ℚ → ℕ × ℚ
  | 0, st => st
  | k + 1, st =>
    let r := evalStep s p st
    if r.2 then r.1 else evalLoop s p k r.1

/-- The squared distance computed at the end of `Evaluate`
(sdf/spline.go lines 307-308 before the square root): run the loop from
the initial state, add the final segment's `idx` field to the local
parameter, and take `D0` there. -/
def EvaluateSq (s : CubicSplineSDF2) (p : V2) : ℚ :=
  let st := evalLoop s p s.maxiters (evalInit s)
  s.D0 (((segAt s st.1).idx : ℚ) + st.2) p

/-- Embedding of Go `(*CubicSplineSDF2).Evaluate` (sdf/spline.go lines
268-318): the square root of the final squared distance.  `math.Sqrt` is
embedded as `Real.sqrt`, hence the result lives in ℝ. -/
noncomputable def Evaluate (s : CubicSplineSDF2) (p : V2) : ℝ :=
  Real.sqrt ((EvaluateSq s p : ℚ) : ℝ)

/-! ### Concrete instances used as witnesses and counterexamples -/

/-- The knot list of the spec's end-to-end example: `[(0,0),(1,1),(2,0)]`. -/
def kexample : List V2 := [⟨0, 0⟩, ⟨1, 1⟩, ⟨2, 0⟩]

/-- The spline set that `CubicSpline2D` builds from `kexample`
(solved derivative vectors `xx = [1,1,1]`, `xy = [3/2, 0, -3/2]`). -/
def sexample : CubicSplineSDF2 :=
  ⟨[⟨0, ⟨0, 0⟩, ⟨1, 1⟩, ⟨0, 1, 0, 0⟩, ⟨0, 3/2, 0, -1/2⟩⟩,
    ⟨1, ⟨1, 1⟩, ⟨2, 0⟩, ⟨1, 1, 0, 0⟩, ⟨1, 0, -3/2, 1/2⟩⟩], 10⟩

/-- A spline set with five segments (only the segment count matters to the
statements that use it). -/
def sfive : CubicSplineSDF2 :=
  ⟨[segDefault, segDefault, segDefault, segDefault, segDefault], 10⟩

/-- A degenerate constant segment (both axis polynomials constant): its
velocity and acceleration vanish identically, so the Newton denominator is
zero at a query point on the curve. -/
def degSeg : CubicSpline := ⟨0, ⟨5, 7⟩, ⟨5, 7⟩, ⟨5, 0, 0, 0⟩, ⟨7, 0, 0, 0⟩⟩

end Sdf

namespace Sdf

/-! ### Helper lemmas: snapping error -/

lemma EPSILON_pos : 0 < EPSILON := by norm_num [EPSILON]

/-- Snapping moves a value by at most `ε * y` when `|x| ≤ y`. -/
lemma zeroSmall_sub_abs_le (x y ε : ℚ) (hxy : |x| ≤ y) (hε : 0 < ε) :
    |ZeroSmall x y ε - x| ≤ ε * y := by
  unfold ZeroSmall Abs
  by_cases h : |x| / y < ε
  · rw [if_pos h]
    rcases eq_or_lt_of_le (le_trans (abs_nonneg x) hxy) with hy | hy
    · have hx0 : |x| = 0 := le_antisymm (hy ▸ hxy) (abs_nonneg x)
      rw [zero_sub, abs_neg, hx0, ← hy]
      nlinarith
    · rw [zero_sub, abs_neg]
      have := (div_lt_iff₀ hy).mp h
      linarith
  · rw [if_neg h, sub_self, abs_zero]
    have hy : 0 ≤ y := le_trans (abs_nonneg x) hxy
    positivity

lemma zeroSmall_zero (y ε : ℚ) (hε : 0 < ε) : ZeroSmall 0 y ε = 0 := by
  unfold ZeroSmall Abs
  rw [abs_zero, zero_div, if_pos hε]

/-! ### Helper lemmas: the Hermite fit `CubicPolynomial.Set` -/

lemma Set_eq (y0 y1 D0 D1 : ℚ) :
    CubicPolynomial.Set y0 y1 D0 D1 =
      ⟨ZeroSmall y0 (fitSum y0 y1 D0 D1) EPSILON,
       ZeroSmall D0 (fitSum y0 y1 D0 D1) EPSILON,
       ZeroSmall (3 * (y1 - y0) - 2 * D0 - D1) (fitSum y0 y1 D0 D1) EPSILON,
       ZeroSmall (2 * (y0 - y1) + D0 + D1) (fitSum y0 y1 D0 D1) EPSILON⟩ := rfl

lemma abs_le_fitSum_a (y0 y1 D0 D1 : ℚ) : |y0| ≤ fitSum y0 y1 D0 D1 := by
  unfold fitSum Abs
  nlinarith [abs_nonneg D0, abs_nonneg (3 * (y1 - y0) - 2 * D0 - D1),
    abs_nonneg (2 * (y0 - y1) + D0 + D1)]

lemma abs_le_fitSum_b (y0 y1 D0 D1 : ℚ) : |D0| ≤ fitSum y0 y1 D0 D1 := by
  unfold fitSum Abs
  nlinarith [abs_nonneg y0, abs_nonneg (3 * (y1 - y0) - 2 * D0 - D1),
    abs_nonneg (2 * (y0 - y1) + D0 + D1)]

lemma abs_le_fitSum_c (y0 y1 D0 D1 : ℚ) :
    |3 * (y1 - y0) - 2 * D0 - D1| ≤ fitSum y0 y1 D0 D1 := by
  unfold fitSum Abs
  nlinarith [abs_nonneg y0, abs_nonneg D0, abs_nonneg (2 * (y0 - y1) + D0 + D1)]

lemma abs_le_fitSum_d (y0 y1 D0 D1 : ℚ) :
    |2 * (y0 - y1) + D0 + D1| ≤ fitSum y0 y1 D0 D1 := by
  unfold fitSum Abs
  nlinarith [abs_nonneg y0, abs_nonneg D0, abs_nonneg (3 * (y1 - y0) - 2 * D0 - D1)]

/-- After the fit, the value at `t = 0` is `y0` up to one snapping error. -/
lemma Set_f0_zero (y0 y1 D0 D1 : ℚ) :
    |(CubicPolynomial.Set y0 y1 D0 D1).f0 0 - y0| ≤ EPSILON * fitSum y0 y1 D0 D1 := by
  have h := zeroSmall_sub_abs_le y0 (fitSum y0 y1 D0 D1) EPSILON
    (abs_le_fitSum_a y0 y1 D0 D1) EPSILON_pos
  calc |(CubicPolynomial.Set y0 y1 D0 D1).f0 0 - y0|
      = |ZeroSmall y0 (fitSum y0 y1 D0 D1) EPSILON - y0| := by
        rw [Set_eq]; unfold CubicPolynomial.f0; ring_nf
    _ ≤ EPSILON * fitSum y0 y1 D0 D1 := h

/-- After the fit, the value at `t = 1` is `y1` up to four snapping errors. -/
lemma Set_f0_one (y0 y1 D0 D1 : ℚ) :
    |(CubicPolynomial.Set y0 y1 D0 D1).f0 1 - y1| ≤
      4 * (EPSILON * fitSum y0 y1 D0 D1) := by
  set S := fitSum y0 y1 D0 D1 with hS
  set c0 := 3 * (y1 - y0) - 2 * D0 - D1 with hc0
  set d0 := 2 * (y0 - y1) + D0 + D1 with hd0
  have ha := zeroSmall_sub_abs_le y0 S EPSILON (abs_le_fitSum_a y0 y1 D0 D1) EPSILON_pos
  have hb := zeroSmall_sub_abs_le D0 S EPSILON (abs_le_fitSum_b y0 y1 D0 D1) EPSILON_pos
  have hc := zeroSmall_sub_abs_le c0 S EPSILON (abs_le_fitSum_c y0 y1 D0 D1) EPSILON_pos
  have hd := zeroSmall_sub_abs_le d0 S EPSILON (abs_le_fitSum_d y0 y1 D0 D1) EPSILON_pos
  have key : (CubicPolynomial.Set y0 y1 D0 D1).f0 1 - y1 =
      (ZeroSmall y0 S EPSILON - y0) + ((ZeroSmall D0 S EPSILON - D0) +
        ((ZeroSmall c0 S EPSILON - c0) + (ZeroSmall d0 S EPSILON - d0))) := by
    rw [Set_eq]; unfold CubicPolynomial.f0; rw [← hS, ← hc0, ← hd0]; ring
  rw [key]
  calc |(ZeroSmall y0 S EPSILON - y0) + ((ZeroSmall D0 S EPSILON - D0) +
        ((ZeroSmall c0 S EPSILON - c0) + (ZeroSmall d0 S EPSILON - d0)))|
      ≤ |ZeroSmall y0 S EPSILON - y0| + (|ZeroSmall D0 S EPSILON - D0| +
        (|ZeroSmall c0 S EPSILON - c0| + |ZeroSmall d0 S EPSILON - d0|)) := by
        refine le_trans (abs_add _ _) ?_
        refine add_le_add_left (le_trans (abs_add _ _) ?_) _
        exact add_le_add_left (abs_add _ _) _
    _ ≤ 4 * (EPSILON * S) := by linarith

/-- After the fit, the derivative at `t = 0` is `D0` up to one snapping
error. -/
lemma Set_f1_zero (y0 y1 D0 D1 : ℚ) :
    |(CubicPolynomial.Set y0 y1 D0 D1).f1 0 - D0| ≤ EPSILON * fitSum y0 y1 D0 D1 := by
  have h := zeroSmall_sub_abs_le D0 (fitSum y0 y1 D0 D1) EPSILON
    (abs_le_fitSum_b y0 y1 D0 D1) EPSILON_pos
  calc |(CubicPolynomial.Set y0 y1 D0 D1).f1 0 - D0|
      = |ZeroSmall D0 (fitSum y0 y1 D0 D1) EPSILON - D0| := by
        rw [Set_eq]; unfold CubicPolynomial.f1; ring_nf
    _ ≤ EPSILON * fitSum y0 y1 D0 D1 := h

/-- After the fit, the derivative at `t = 1` is `D1` up to six snapping
errors. -/
lemma Set_f1_one (y0 y1 D0 D1 : ℚ) :
    |(CubicPolynomial.Set y0 y1 D0 D1).f1 1 - D1| ≤
      6 * (EPSILON * fitSum y0 y1 D0 D1) := by
  set S := fitSum y0 y1 D0 D1 with hS
  set c0 := 3 * (y1 - y0) - 2 * D0 - D1 with hc0
  set d0 := 2 * (y0 - y1) + D0 + D1 with hd0
  have hb := zeroSmall_sub_abs_le D0 S EPSILON (abs_le_fitSum_b y0 y1 D0 D1) EPSILON_pos
  have hc := zeroSmall_sub_abs_le c0 S EPSILON (abs_le_fitSum_c y0 y1 D0 D1) EPSILON_pos
  have hd := zeroSmall_sub_abs_le d0 S EPSILON (abs_le_fitSum_d y0 y1 D0 D1) EPSILON_pos
  have key : (CubicPolynomial.Set y0 y1 D0 D1).f1 1 - D1 =
      (ZeroSmall D0 S EPSILON - D0) + (2 * (ZeroSmall c0 S EPSILON - c0) +
        3 * (ZeroSmall d0 S EPSILON - d0)) := by
    rw [Set_eq]; unfold CubicPolynomial.f1; rw [← hS, ← hc0, ← hd0]; ring
  rw [key]
  have habs2 : |2 * (ZeroSmall c0 S EPSILON - c0)| = 2 * |ZeroSmall c0 S EPSILON - c0| := by
    rw [abs_mul]; norm_num
  have habs3 : |3 * (ZeroSmall d0 S EPSILON - d0)| = 3 * |ZeroSmall d0 S EPSILON - d0| := by
    rw [abs_mul]; norm_num
  calc |(ZeroSmall D0 S EPSILON - D0) + (2 * (ZeroSmall c0 S EPSILON - c0) +
        3 * (ZeroSmall d0 S EPSILON - d0))|
      ≤ |ZeroSmall D0 S EPSILON - D0| + (|2 * (ZeroSmall c0 S EPSILON - c0)| +
        |3 * (ZeroSmall d0 S EPSILON - d0)|) := by
        refine le_trans (abs_add _ _) ?_
        exact add_le_add_left (abs_add _ _) _
    _ ≤ 6 * (EPSILON * S) := by rw [habs2, habs3]; linarith

/-- When the raw quadratic coefficient vanishes, the fitted second
derivative at `t = 0` is exactly zero. -/
lemma Set_f2_zero_eq (y0 y1 D0 D1 : ℚ) (h : 3 * (y1 - y0) - 2 * D0 - D1 = 0) :
    (CubicPolynomial.Set y0 y1 D0 D1).f2 0 = 0 := by
  rw [Set_eq]
  unfold CubicPolynomial.f2
  rw [h, zeroSmall_zero _ _ EPSILON_pos]
  ring

/-- When the raw coefficients satisfy `c + 3d = 0`, the fitted second
derivative at `t = 1` is zero up to eight snapping errors. -/
lemma Set_f2_one_bound (y0 y1 D0 D1 : ℚ)
    (h : (3 * (y1 - y0) - 2 * D0 - D1) + 3 * (2 * (y0 - y1) + D0 + D1) = 0) :
    |(CubicPolynomial.Set y0 y1 D0 D1).f2 1| ≤
      8 * (EPSILON * fitSum y0 y1 D0 D1) := by
  set S := fitSum y0 y1 D0 D1 with hS
  set c0 := 3 * (y1 - y0) - 2 * D0 - D1 with hc0
  set d0 := 2 * (y0 - y1) + D0 + D1 with hd0
  have hc := zeroSmall_sub_abs_le c0 S EPSILON (abs_le_fitSum_c y0 y1 D0 D1) EPSILON_pos
  have hd := zeroSmall_sub_abs_le d0 S EPSILON (abs_le_fitSum_d y0 y1 D0 D1) EPSILON_pos
  have key : (CubicPolynomial.Set y0 y1 D0 D1).f2 1 =
      2 * (ZeroSmall c0 S EPSILON - c0) + 6 * (ZeroSmall d0 S EPSILON - d0) := by
    rw [Set_eq]
    unfold CubicPolynomial.f2
    rw [← hS, ← hc0, ← hd0]
    have : c0 + 3 * d0 = 0 := h
    linarith [this]
  rw [key]
  have habs2 : |2 * (ZeroSmall c0 S EPSILON - c0)| = 2 * |ZeroSmall c0 S EPSILON - c0| := by
    rw [abs_mul]; norm_num
  have habs6 : |6 * (ZeroSmall d0 S EPSILON - d0)| = 6 * |ZeroSmall d0 S EPSILON - d0| := by
    rw [abs_mul]; norm_num
  calc |2 * (ZeroSmall c0 S EPSILON - c0) + 6 * (ZeroSmall d0 S EPSILON - d0)|
      ≤ |2 * (ZeroSmall c0 S EPSILON - c0)| + |6 * (ZeroSmall d0 S EPSILON - d0)| :=
        abs_add _ _
    _ ≤ 8 * (EPSILON * S) := by rw [habs2, habs6]; linarith

end Sdf

namespace Sdf

/-! ### Helper lemmas: indexing `List.ofFn` -/

lemma getD_ofFn {α : Type} {n : ℕ} (f : Fin n → α) (dflt : α) (j : ℕ) (h : j < n) :
    (List.ofFn f).getD j dflt = f ⟨j, h⟩ := by
  rw [List.getD_eq_getElem?_getD, List.getElem?_ofFn]
  simp [List.ofFnNthVal, h]

lemma getD_ofFn_oor {α : Type} {n : ℕ} (f : Fin n → α) (dflt : α) (j : ℕ) (h : n ≤ j) :
    (List.ofFn f).getD j dflt = dflt := by
  rw [List.getD_eq_getElem?_getD, List.getElem?_ofFn]
  simp [List.ofFnNthVal, Nat.not_lt.mpr h]

/-! ### Helper lemmas: the Thomas algorithm solves the system -/

lemma xsolAux_succ (a b c d : ℕ → ℚ) (n j : ℕ) :
    xsolAux a b c d n (j + 1) =
      xp a b c d (n - 2 - j) - cp a b c (n - 2 - j) * xsolAux a b c d n j := rfl

lemma xsol_last (a b c d : ℕ → ℚ) (n : ℕ) :
    xsol a b c d n (n - 1) = xp a b c d (n - 1) := by
  unfold xsol
  rw [Nat.sub_self]
  rfl

lemma xsol_step (a b c d : ℕ → ℚ) (n i : ℕ) (h : i + 1 ≤ n - 1) :
    xsol a b c d n i = xp a b c d i - cp a b c i * xsol a b c d n (i + 1) := by
  unfold xsol
  have h1 : n - 1 - i = (n - 1 - (i + 1)) + 1 := by omega
  rw [h1, xsolAux_succ]
  have h2 : n - 2 - (n - 1 - (i + 1)) = i := by omega
  rw [h2]

lemma cp_zero_mul (a b c : ℕ → ℚ) (hb0 : b 0 ≠ 0) : b 0 * cp a b c 0 = c 0 := by
  unfold cp
  field_simp

lemma xp_zero_mul (a b c d : ℕ → ℚ) (hb0 : b 0 ≠ 0) : b 0 * xp a b c d 0 = d 0 := by
  unfold xp
  field_simp

lemma elimDenom_succ (a b c : ℕ → ℚ) (i : ℕ) :
    elimDenom a b c (i + 1) = b (i + 1) - a (i + 1) * cp a b c i := rfl

lemma cp_succ_mul (a b c : ℕ → ℚ) (i : ℕ) (hD : elimDenom a b c (i + 1) ≠ 0) :
    (b (i + 1) - a (i + 1) * cp a b c i) * cp a b c (i + 1) = c (i + 1) := by
  rw [elimDenom_succ] at hD
  show (b (i + 1) - a (i + 1) * cp a b c i) *
      (c (i + 1) / (b (i + 1) - a (i + 1) * cp a b c i)) = c (i + 1)
  field_simp

lemma xp_succ_mul (a b c d : ℕ → ℚ) (i : ℕ) (hD : elimDenom a b c (i + 1) ≠ 0) :
    (b (i + 1) - a (i + 1) * cp a b c i) * xp a b c d (i + 1) =
      d (i + 1) - a (i + 1) * xp a b c d i := by
  rw [elimDenom_succ] at hD
  show (b (i + 1) - a (i + 1) * cp a b c i) *
      ((d (i + 1) - a (i + 1) * xp a b c d i) / (b (i + 1) - a (i + 1) * cp a b c i)) = _
  field_simp

/-- Row 0 of the system holds for the back-substituted solution
(`n ≥ 2`; the `n = 1` case is handled at the list level). -/
lemma thomas_row0 (a b c d : ℕ → ℚ) (n : ℕ) (hn : 2 ≤ n) (hb0 : b 0 ≠ 0) :
    b 0 * xsol a b c d n 0 + c 0 * xsol a b c d n 1 = d 0 := by
  rw [xsol_step a b c d n 0 (by omega)]
  have h1 := cp_zero_mul a b c hb0
  have h2 := xp_zero_mul a b c d hb0
  linear_combination h2 - xsol a b c d n 1 * h1

/-- An interior row `1 ≤ i ≤ n - 2` of the system holds for the
back-substituted solution. -/
lemma thomas_row_mid (a b c d : ℕ → ℚ) (n i : ℕ) (h1i : 1 ≤ i) (hin : i ≤ n - 2)
    (hn : 2 ≤ n) (hD : elimDenom a b c i ≠ 0) :
    a i * xsol a b c d n (i - 1) + b i * xsol a b c d n i +
      c i * xsol a b c d n (i + 1) = d i := by
  obtain ⟨j, rfl⟩ : ∃ j, i = j + 1 := ⟨i - 1, by omega⟩
  simp only [Nat.add_sub_cancel]
  rw [xsol_step a b c d n j (by omega), xsol_step a b c d n (j + 1) (by omega)]
  have hc := cp_succ_mul a b c j hD
  have hx := xp_succ_mul a b c d j hD
  linear_combination hx - xsol a b c d n (j + 1 + 1) * hc

/-- The last row `i = n - 1` of the system (without its vanishing
super-diagonal term) holds for the back-substituted solution. -/
lemma thomas_rowlast (a b c d : ℕ → ℚ) (n : ℕ) (hn : 2 ≤ n)
    (hD : elimDenom a b c (n - 1) ≠ 0) :
    a (n - 1) * xsol a b c d n (n - 2) + b (n - 1) * xsol a b c d n (n - 1) =
      d (n - 1) := by
  have hj : n - 1 = (n - 2) + 1 := by omega
  rw [xsol_last, xsol_step a b c d n (n - 2) (by omega)]
  rw [hj] at hD ⊢
  have hlast : xsol a b c d n (n - 2 + 1) = xp a b c d (n - 2 + 1) := by
    rw [← hj]
    exact xsol_last a b c d n
  rw [hlast]
  have hc := cp_succ_mul a b c (n - 2) hD
  have hx := xp_succ_mul a b c d (n - 2) hD
  linear_combination hx

end Sdf

namespace Sdf

/-! ### Helper lemmas: `TriDiagonal` case analysis -/

lemma denomCheck_iff (m : List V3) :
    denomCheck m = true ↔
      ∀ i ∈ List.range' 1 (m.length - 1),
        elimDenom (subDiag m) (mainDiag m) (superDiag m) i ≠ 0 := by
  unfold denomCheck
  rw [List.all_eq_true]
  constructor
  · intro h i hi
    exact of_decide_eq_true (h i hi)
  · intro h i hi
    exact decide_eq_true (h i hi)

/-- When every check passes, `TriDiagonal` returns the back-substituted
solution. -/
lemma triDiagonal_eq_some (m : List V3) (d : List ℚ)
    (hlen : d.length = m.length) (hne : m.length ≠ 0)
    (hsub : subDiag m 0 = 0) (hsuper : superDiag m (m.length - 1) = 0)
    (hmain : mainDiag m 0 ≠ 0) (hden : denomCheck m = true) :
    TriDiagonal m d = some (List.ofFn fun i : Fin m.length =>
      xsol (subDiag m) (mainDiag m) (superDiag m) (rhs d) m.length i) := by
  unfold TriDiagonal
  rw [if_neg (by omega), if_neg hne, if_neg (by push_neg; exact ⟨hsub, hsuper⟩),
    if_neg hmain, if_pos (by rw [hden])]

/-- Inversion: a `some` result means every check passed and the result is
the back-substituted solution. -/
lemma triDiagonal_some_inv (m : List V3) (d : List ℚ) (x : List ℚ)
    (h : TriDiagonal m d = some x) :
    d.length = m.length ∧ m.length ≠ 0 ∧ subDiag m 0 = 0 ∧
      superDiag m (m.length - 1) = 0 ∧ mainDiag m 0 ≠ 0 ∧ denomCheck m = true ∧
      x = List.ofFn fun i : Fin m.length =>
        xsol (subDiag m) (mainDiag m) (superDiag m) (rhs d) m.length i := by
  unfold TriDiagonal at h
  by_cases h1 : d.length ≠ m.length
  · rw [if_pos h1] at h
    exact absurd h (by simp)
  rw [if_neg h1] at h
  by_cases h2 : m.length = 0
  · rw [if_pos h2] at h
    exact absurd h (by simp)
  rw [if_neg h2] at h
  by_cases h3 : subDiag m 0 ≠ 0 ∨ superDiag m (m.length - 1) ≠ 0
  · rw [if_pos h3] at h
    exact absurd h (by simp)
  rw [if_neg h3] at h
  by_cases h4 : mainDiag m 0 = 0
  · rw [if_pos h4] at h
    exact absurd h (by simp)
  rw [if_neg h4] at h
  by_cases h5 : denomCheck m = true
  · rw [if_pos (by rw [h5])] at h
    push_neg at h1 h3
    exact ⟨h1, h2, h3.1, h3.2, h4, h5, (Option.some_inj.mp h).symm⟩
  · rw [if_neg (by rw [Bool.not_eq_true] at h5; rw [h5]; exact Bool.false_ne_true)] at h
    exact absurd h (by simp)

/-- The solution returned by `TriDiagonal` has the input length and solves
the tridiagonal system. -/
lemma triDiagonal_some_solves (m : List V3) (d : List ℚ) (x : List ℚ)
    (h : TriDiagonal m d = some x) :
    x.length = m.length ∧ solvesTriDiag m d x := by
  obtain ⟨hlen, hne, hsub, hsuper, hmain, hden, hx⟩ := triDiagonal_some_inv m d x h
  subst hx
  have hden' := (denomCheck_iff m).mp hden
  have hdenI : ∀ i, 1 ≤ i → i ≤ m.length - 1 →
      elimDenom (subDiag m) (mainDiag m) (superDiag m) i ≠ 0 := by
    intro i hi1 hi2
    apply hden'
    rw [List.mem_range'_1]
    omega
  refine ⟨List.length_ofFn _, ?_, ?_⟩
  · -- row 0
    rcases Nat.lt_or_ge m.length 2 with hn2 | hn2
    · -- single-row system: the super-diagonal of row 0 is the last row's
      have hn1 : m.length = 1 := by omega
      have e0 : (List.ofFn fun i : Fin m.length =>
          xsol (subDiag m) (mainDiag m) (superDiag m) (rhs d) m.length i).getD 0 0 =
          xsol (subDiag m) (mainDiag m) (superDiag m) (rhs d) m.length 0 := by
        rw [getD_ofFn _ 0 0 (by omega)]
      have e1 : (List.ofFn fun i : Fin m.length =>
          xsol (subDiag m) (mainDiag m) (superDiag m) (rhs d) m.length i).getD 1 0 = 0 :=
        getD_ofFn_oor _ 0 1 (by omega)
      have hc0 : superDiag m 0 = 0 := by
        rw [hn1] at hsuper
        simpa using hsuper
      have hx0 : xsol (subDiag m) (mainDiag m) (superDiag m) (rhs d) m.length 0 =
          xp (subDiag m) (mainDiag m) (superDiag m) (rhs d) 0 := by
        have h00 : (0 : ℕ) = m.length - 1 := by omega
        rw [h00]
        have := xsol_last (subDiag m) (mainDiag m) (superDiag m) (rhs d) m.length
        rw [this, ← h00]
      rw [e0, e1, hc0, hx0]
      have := xp_zero_mul (subDiag m) (mainDiag m) (superDiag m) (rhs d) hmain
      linarith
    · have e0 : (List.ofFn fun i : Fin m.length =>
          xsol (subDiag m) (mainDiag m) (superDiag m) (rhs d) m.length i).getD 0 0 =
          xsol (subDiag m) (mainDiag m) (superDiag m) (rhs d) m.length 0 := by
        rw [getD_ofFn _ 0 0 (by omega)]
      have e1 : (List.ofFn fun i : Fin m.length =>
          xsol (subDiag m) (mainDiag m) (superDiag m) (rhs d) m.length i).getD 1 0 =
          xsol (subDiag m) (mainDiag m) (superDiag m) (rhs d) m.length 1 := by
        rw [getD_ofFn _ 0 1 (by omega)]
      rw [e0, e1]
      exact thomas_row0 _ _ _ _ _ hn2 hmain
  · -- rows 1 .. n-1
    intro i hi1 hin
    have hn2 : 2 ≤ m.length := by omega
    have eim : (List.ofFn fun j : Fin m.length =>
        xsol (subDiag m) (mainDiag m) (superDiag m) (rhs d) m.length j).getD (i - 1) 0 =
        xsol (subDiag m) (mainDiag m) (superDiag m) (rhs d) m.length (i - 1) := by
      rw [getD_ofFn _ 0 (i - 1) (by omega)]
    have ei : (List.ofFn fun j : Fin m.length =>
        xsol (subDiag m) (mainDiag m) (superDiag m) (rhs d) m.length j).getD i 0 =
        xsol (subDiag m) (mainDiag m) (superDiag m) (rhs d) m.length i := by
      rw [getD_ofFn _ 0 i (by omega)]
    rcases Nat.lt_or_ge i (m.length - 1) with hmid | hlast
    · have eip : (List.ofFn fun j : Fin m.length =>
          xsol (subDiag m) (mainDiag m) (superDiag m) (rhs d) m.length j).getD (i + 1) 0 =
          xsol (subDiag m) (mainDiag m) (superDiag m) (rhs d) m.length (i + 1) := by
        rw [getD_ofFn _ 0 (i + 1) (by omega)]
      rw [eim, ei, eip]
      exact thomas_row_mid _ _ _ _ _ i hi1 (by omega) hn2 (hdenI i hi1 (by omega))
    · -- the last row: its super-diagonal coefficient is 0
      have hieq : i = m.length - 1 := by omega
      have hcz : superDiag m i = 0 := by
        rw [hieq]
        exact hsuper
      rw [eim, ei, hcz, zero_mul, add_zero, hieq,
        show m.length - 1 - 1 = m.length - 2 from by omega]
      exact thomas_rowlast _ _ _ _ _ hn2 (hdenI (m.length - 1) (by omega) (by omega))

end Sdf

namespace Sdf

/-! ### Helper lemmas: the natural-spline tridiagonal system never panics -/

lemma naturalM_length (n : ℕ) : (naturalM n).length = n := List.length_ofFn _

lemma naturalM_getD (n j : ℕ) (h : j < n) :
    (naturalM n).getD j v3z =
      if j = 0 then ⟨0, 2, 1⟩ else if j = n - 1 then ⟨1, 2, 0⟩ else ⟨1, 4, 1⟩ := by
  unfold naturalM
  rw [getD_ofFn _ v3z j h]

lemma naturalM_row_zero (n : ℕ) (h : 0 < n) :
    (naturalM n).getD 0 v3z = ⟨0, 2, 1⟩ := by
  rw [naturalM_getD n 0 h, if_pos rfl]

lemma naturalM_row_last (n : ℕ) (h : 2 ≤ n) :
    (naturalM n).getD (n - 1) v3z = ⟨1, 2, 0⟩ := by
  rw [naturalM_getD n (n - 1) (by omega), if_neg (by omega), if_pos rfl]

lemma naturalM_row_mid (n j : ℕ) (h1 : 1 ≤ j) (h2 : j ≤ n - 2) (hn : 2 ≤ n) :
    (naturalM n).getD j v3z = ⟨1, 4, 1⟩ := by
  rw [naturalM_getD n j (by omega), if_neg (by omega), if_neg (by omega)]

/-- The forward-elimination coefficients of the natural-spline matrix stay
in `(0, 1/2]`. -/
lemma cp_naturalM_bounds (n : ℕ) (hn : 2 ≤ n) :
    ∀ i, i ≤ n - 2 →
      0 < cp (subDiag (naturalM n)) (mainDiag (naturalM n)) (superDiag (naturalM n)) i ∧
      cp (subDiag (naturalM n)) (mainDiag (naturalM n)) (superDiag (naturalM n)) i ≤ 1/2 := by
  intro i
  induction i with
  | zero =>
    intro _
    have hc : superDiag (naturalM n) 0 = 1 := by
      unfold superDiag
      rw [naturalM_row_zero n (by omega)]
    have hb : mainDiag (naturalM n) 0 = 2 := by
      unfold mainDiag
      rw [naturalM_row_zero n (by omega)]
    unfold cp
    rw [hc, hb]
    norm_num
  | succ j ih =>
    intro hj
    have hbnd := ih (by omega)
    have hrow : (naturalM n).getD (j + 1) v3z = ⟨1, 4, 1⟩ :=
      naturalM_row_mid n (j + 1) (by omega) (by omega) hn
    have ha : subDiag (naturalM n) (j + 1) = 1 := by
      unfold subDiag
      rw [hrow]
    have hb : mainDiag (naturalM n) (j + 1) = 4 := by
      unfold mainDiag
      rw [hrow]
    have hc : superDiag (naturalM n) (j + 1) = 1 := by
      unfold superDiag
      rw [hrow]
    have hcp : cp (subDiag (naturalM n)) (mainDiag (naturalM n))
        (superDiag (naturalM n)) (j + 1) =
        1 / (4 - cp (subDiag (naturalM n)) (mainDiag (naturalM n))
          (superDiag (naturalM n)) j) := by
      show superDiag (naturalM n) (j + 1) /
        (mainDiag (naturalM n) (j + 1) - subDiag (naturalM n) (j + 1) *
          cp (subDiag (naturalM n)) (mainDiag (naturalM n))
            (superDiag (naturalM n)) j) = _
      rw [ha, hb, hc, one_mul]
    rw [hcp]
    constructor
    · apply div_pos (by norm_num)
      linarith [hbnd.1, hbnd.2]
    · rw [div_le_iff₀ (by linarith [hbnd.1, hbnd.2])]
      linarith [hbnd.1, hbnd.2]

/-- No elimination denominator of the natural-spline matrix vanishes. -/
lemma elimDenom_naturalM_ne (n : ℕ) (hn : 2 ≤ n) (i : ℕ) (h1 : 1 ≤ i) (h2 : i ≤ n - 1) :
    elimDenom (subDiag (naturalM n)) (mainDiag (naturalM n))
      (superDiag (naturalM n)) i ≠ 0 := by
  obtain ⟨j, rfl⟩ : ∃ j, i = j + 1 := ⟨i - 1, by omega⟩
  rw [elimDenom_succ]
  have hbnd := cp_naturalM_bounds n hn j (by omega)
  rcases Nat.lt_or_ge (j + 1) (n - 1) with hmid | hlastr
  · have hrow : (naturalM n).getD (j + 1) v3z = ⟨1, 4, 1⟩ :=
      naturalM_row_mid n (j + 1) (by omega) (by omega) hn
    have ha : subDiag (naturalM n) (j + 1) = 1 := by
      unfold subDiag
      rw [hrow]
    have hb : mainDiag (naturalM n) (j + 1) = 4 := by
      unfold mainDiag
      rw [hrow]
    rw [ha, hb]
    nlinarith [hbnd.1, hbnd.2]
  · have hj : j + 1 = n - 1 := by omega
    have hrow : (naturalM n).getD (j + 1) v3z = ⟨1, 2, 0⟩ := by
      rw [hj]
      exact naturalM_row_last n hn
    have ha : subDiag (naturalM n) (j + 1) = 1 := by
      unfold subDiag
      rw [hrow]
    have hb : mainDiag (naturalM n) (j + 1) = 2 := by
      unfold mainDiag
      rw [hrow]
    rw [ha, hb]
    nlinarith [hbnd.1, hbnd.2]

lemma denomCheck_naturalM (n : ℕ) (hn : 2 ≤ n) : denomCheck (naturalM n) = true := by
  rw [denomCheck_iff]
  intro i hi
  rw [List.mem_range'_1, naturalM_length] at hi
  exact elimDenom_naturalM_ne n hn i hi.1 (by omega)

lemma rhsX_length (knot : List V2) : (rhsX knot).length = knot.length :=
  List.length_ofFn _

lemma rhsY_length (knot : List V2) : (rhsY knot).length = knot.length :=
  List.length_ofFn _

/-- For at least two knots, the x-axis tridiagonal solve succeeds. -/
lemma triDiagonal_naturalM_rhsX (knot : List V2) (hn : 2 ≤ knot.length) :
    TriDiagonal (naturalM knot.length) (rhsX knot) =
      some (List.ofFn fun i : Fin (naturalM knot.length).length =>
        xsol (subDiag (naturalM knot.length)) (mainDiag (naturalM knot.length))
          (superDiag (naturalM knot.length)) (rhs (rhsX knot))
          (naturalM knot.length).length i) := by
  apply triDiagonal_eq_some
  · rw [rhsX_length, naturalM_length]
  · rw [naturalM_length]
    omega
  · unfold subDiag
    rw [naturalM_row_zero knot.length (by omega)]
  · unfold superDiag
    rw [naturalM_length, naturalM_row_last knot.length hn]
  · unfold mainDiag
    rw [naturalM_row_zero knot.length (by omega)]
    norm_num
  · exact denomCheck_naturalM knot.length hn

/-- For at least two knots, the y-axis tridiagonal solve succeeds. -/
lemma triDiagonal_naturalM_rhsY (knot : List V2) (hn : 2 ≤ knot.length) :
    TriDiagonal (naturalM knot.length) (rhsY knot) =
      some (List.ofFn fun i : Fin (naturalM knot.length).length =>
        xsol (subDiag (naturalM knot.length)) (mainDiag (naturalM knot.length))
          (superDiag (naturalM knot.length)) (rhs (rhsY knot))
          (naturalM knot.length).length i) := by
  apply triDiagonal_eq_some
  · rw [rhsY_length, naturalM_length]
  · rw [naturalM_length]
    omega
  · unfold subDiag
    rw [naturalM_row_zero knot.length (by omega)]
  · unfold superDiag
    rw [naturalM_length, naturalM_row_last knot.length hn]
  · unfold mainDiag
    rw [naturalM_row_zero knot.length (by omega)]
    norm_num
  · exact denomCheck_naturalM knot.length hn

end Sdf

namespace Sdf

/-! ### Helper lemmas: construction inversion and row equations -/

lemma rhsX_getD (knot : List V2) (j : ℕ) (h : j < knot.length) :
    (rhsX knot).getD j 0 =
      if j = 0 then 3 * ((knot.getD 1 v2z).X - (knot.getD 0 v2z).X)
      else if j = knot.length - 1 then
        3 * ((knot.getD (knot.length - 1) v2z).X - (knot.getD (knot.length - 2) v2z).X)
      else 3 * ((knot.getD (j + 1) v2z).X - (knot.getD (j - 1) v2z).X) := by
  unfold rhsX
  rw [getD_ofFn _ 0 j h]

lemma rhsY_getD (knot : List V2) (j : ℕ) (h : j < knot.length) :
    (rhsY knot).getD j 0 =
      if j = 0 then 3 * ((knot.getD 1 v2z).Y - (knot.getD 0 v2z).Y)
      else if j = knot.length - 1 then
        3 * ((knot.getD (knot.length - 1) v2z).Y - (knot.getD (knot.length - 2) v2z).Y)
      else 3 * ((knot.getD (j + 1) v2z).Y - (knot.getD (j - 1) v2z).Y) := by
  unfold rhsY
  rw [getD_ofFn _ 0 j h]

lemma mkSegments_length (knot : List V2) (xx xy : List ℚ) :
    (mkSegments knot xx xy).length = knot.length - 1 := List.length_ofFn _

lemma mkSegments_getD (knot : List V2) (xx xy : List ℚ) (i : ℕ)
    (h : i < knot.length - 1) :
    (mkSegments knot xx xy).getD i segDefault =
      ⟨i, knot.getD i v2z, knot.getD (i + 1) v2z,
       CubicPolynomial.Set (knot.getD i v2z).X (knot.getD (i + 1) v2z).X
         (xx.getD i 0) (xx.getD (i + 1) 0),
       CubicPolynomial.Set (knot.getD i v2z).Y (knot.getD (i + 1) v2z).Y
         (xy.getD i 0) (xy.getD (i + 1) 0)⟩ := by
  unfold mkSegments
  rw [getD_ofFn _ segDefault i h]

lemma splineDerivsX_spec (knot : List V2) (hn : 2 ≤ knot.length) :
    TriDiagonal (naturalM knot.length) (rhsX knot) = some (splineDerivsX knot) := by
  have h := triDiagonal_naturalM_rhsX knot hn
  unfold splineDerivsX
  rw [h]
  rfl

lemma splineDerivsY_spec (knot : List V2) (hn : 2 ≤ knot.length) :
    TriDiagonal (naturalM knot.length) (rhsY knot) = some (splineDerivsY knot) := by
  have h := triDiagonal_naturalM_rhsY knot hn
  unfold splineDerivsY
  rw [h]
  rfl

/-- For at least two knots the construction succeeds with the solved
derivative vectors. -/
lemma cubicSpline2D_some (knot : List V2) (hn : 2 ≤ knot.length) :
    CubicSpline2D knot =
      some ⟨mkSegments knot (splineDerivsX knot) (splineDerivsY knot), NR_MAXITERS⟩ := by
  unfold CubicSpline2D
  rw [if_neg (by omega), splineDerivsX_spec knot hn, splineDerivsY_spec knot hn]

/-- Inversion: a constructed spline set is the segment list built from the
solved derivative vectors. -/
lemma cubicSpline2D_inv (knot : List V2) (s : CubicSplineSDF2)
    (h : CubicSpline2D knot = some s) :
    2 ≤ knot.length ∧
      s = ⟨mkSegments knot (splineDerivsX knot) (splineDerivsY knot), NR_MAXITERS⟩ := by
  have hn : 2 ≤ knot.length := by
    by_contra hc
    unfold CubicSpline2D at h
    rw [if_pos (by omega)] at h
    exact absurd h (by simp)
  refine ⟨hn, ?_⟩
  have h2 := cubicSpline2D_some knot hn
  rw [h] at h2
  exact Option.some_inj.mp h2

lemma mainDiag_naturalM_zero (n : ℕ) (h : 0 < n) : mainDiag (naturalM n) 0 = 2 := by
  unfold mainDiag
  rw [naturalM_row_zero n h]

lemma superDiag_naturalM_zero (n : ℕ) (h : 0 < n) : superDiag (naturalM n) 0 = 1 := by
  unfold superDiag
  rw [naturalM_row_zero n h]

lemma subDiag_naturalM_last (n : ℕ) (h : 2 ≤ n) : subDiag (naturalM n) (n - 1) = 1 := by
  unfold subDiag
  rw [naturalM_row_last n h]

lemma mainDiag_naturalM_last (n : ℕ) (h : 2 ≤ n) : mainDiag (naturalM n) (n - 1) = 2 := by
  unfold mainDiag
  rw [naturalM_row_last n h]

lemma superDiag_naturalM_last (n : ℕ) (h : 2 ≤ n) : superDiag (naturalM n) (n - 1) = 0 := by
  unfold superDiag
  rw [naturalM_row_last n h]

/-- Row 0 of the solved x-axis system: `2·x₀ + x₁ = 3(k₁ - k₀)`. -/
lemma natural_rowX_zero (knot : List V2) (hn : 2 ≤ knot.length) :
    2 * dvX knot 0 + dvX knot 1 =
      3 * ((knot.getD 1 v2z).X - (knot.getD 0 v2z).X) := by
  have hs := (triDiagonal_some_solves _ _ _ (splineDerivsX_spec knot hn)).2.1
  rw [mainDiag_naturalM_zero knot.length (by omega),
    superDiag_naturalM_zero knot.length (by omega)] at hs
  unfold rhs at hs
  rw [rhsX_getD knot 0 (by omega), if_pos rfl] at hs
  unfold dvX
  linarith [hs]

/-- Row 0 of the solved y-axis system. -/
lemma natural_rowY_zero (knot : List V2) (hn : 2 ≤ knot.length) :
    2 * dvY knot 0 + dvY knot 1 =
      3 * ((knot.getD 1 v2z).Y - (knot.getD 0 v2z).Y) := by
  have hs := (triDiagonal_some_solves _ _ _ (splineDerivsY_spec knot hn)).2.1
  rw [mainDiag_naturalM_zero knot.length (by omega),
    superDiag_naturalM_zero knot.length (by omega)] at hs
  unfold rhs at hs
  rw [rhsY_getD knot 0 (by omega), if_pos rfl] at hs
  unfold dvY
  linarith [hs]

/-- The last row of the solved x-axis system:
`x_{n-2} + 2·x_{n-1} = 3(k_{n-1} - k_{n-2})`. -/
lemma natural_rowX_last (knot : List V2) (hn : 2 ≤ knot.length) :
    dvX knot (knot.length - 2) + 2 * dvX knot (knot.length - 1) =
      3 * ((knot.getD (knot.length - 1) v2z).X -
        (knot.getD (knot.length - 2) v2z).X) := by
  have hs := (triDiagonal_some_solves _ _ _ (splineDerivsX_spec knot hn)).2.2
    (knot.length - 1) (by omega) (by rw [naturalM_length]; omega)
  rw [subDiag_naturalM_last knot.length hn, mainDiag_naturalM_last knot.length hn,
    superDiag_naturalM_last knot.length hn,
    show knot.length - 1 - 1 = knot.length - 2 from by omega] at hs
  unfold rhs at hs
  rw [rhsX_getD knot (knot.length - 1) (by omega), if_neg (by omega), if_pos rfl] at hs
  unfold dvX
  linarith [hs]

/-- The last row of the solved y-axis system. -/
lemma natural_rowY_last (knot : List V2) (hn : 2 ≤ knot.length) :
    dvY knot (knot.length - 2) + 2 * dvY knot (knot.length - 1) =
      3 * ((knot.getD (knot.length - 1) v2z).Y -
        (knot.getD (knot.length - 2) v2z).Y) := by
  have hs := (triDiagonal_some_solves _ _ _ (splineDerivsY_spec knot hn)).2.2
    (knot.length - 1) (by omega) (by rw [naturalM_length]; omega)
  rw [subDiag_naturalM_last knot.length hn, mainDiag_naturalM_last knot.length hn,
    superDiag_naturalM_last knot.length hn,
    show knot.length - 1 - 1 = knot.length - 2 from by omega] at hs
  unfold rhs at hs
  rw [rhsY_getD knot (knot.length - 1) (by omega), if_neg (by omega), if_pos rfl] at hs
  unfold dvY
  linarith [hs]

end Sdf

namespace Sdf

/-! ### Helper lemmas: concrete evaluations on the example spline -/

/-- Constructing from the example knots yields `sexample`. -/
lemma kexample_eval : CubicSpline2D kexample = some sexample := by
  have h2 : rhsX kexample = [3, 6, 3] := by
    norm_num [rhsX, kexample, List.ofFn_succ, List.ofFn_zero, List.getD, v2z]
  have h3 : rhsY kexample = [3, 0, -3] := by
    norm_num [rhsY, kexample, List.ofFn_succ, List.ofFn_zero, List.getD, v2z]
  have h1 : naturalM (List.length kexample) = [⟨0, 2, 1⟩, ⟨1, 4, 1⟩, ⟨1, 2, 0⟩] := by
    norm_num [naturalM, kexample, List.ofFn_succ, List.ofFn_zero]
  have h4 : TriDiagonal [⟨0, 2, 1⟩, ⟨1, 4, 1⟩, ⟨1, 2, 0⟩] [3, 6, 3] = some [1, 1, 1] := by
    norm_num [TriDiagonal, denomCheck, subDiag, mainDiag, superDiag, rhs, elimDenom,
      cp, xp, xsol, xsolAux, List.ofFn_succ, List.ofFn_zero, List.getD, v3z, List.range']
  have h5 : TriDiagonal [⟨0, 2, 1⟩, ⟨1, 4, 1⟩, ⟨1, 2, 0⟩] [3, 0, -3] =
      some [3/2, 0, -3/2] := by
    norm_num [TriDiagonal, denomCheck, subDiag, mainDiag, superDiag, rhs, elimDenom,
      cp, xp, xsol, xsolAux, List.ofFn_succ, List.ofFn_zero, List.getD, v3z, List.range']
  have h6 : mkSegments [⟨0, 0⟩, ⟨1, 1⟩, ⟨2, 0⟩] [1, 1, 1] [3/2, 0, -(3/2)] =
      [⟨0, ⟨0, 0⟩, ⟨1, 1⟩, ⟨0, 1, 0, 0⟩, ⟨0, 3/2, 0, -1/2⟩⟩,
       ⟨1, ⟨1, 1⟩, ⟨2, 0⟩, ⟨1, 1, 0, 0⟩, ⟨1, 0, -3/2, 1/2⟩⟩] := by
    norm_num [mkSegments, List.ofFn_succ, List.ofFn_zero, List.getD, v2z,
      CubicPolynomial.Set, ZeroSmall, Abs, EPSILON, abs_of_nonneg, abs_of_nonpos]
  rw [CubicSpline2D, h1, h2, h3, h4, h5]
  norm_num [kexample, h6, NR_MAXITERS, sexample]

/-- `Find` written without its `let` bindings. -/
lemma Find_eval (s : CubicSplineSDF2) (t : ℚ) :
    s.Find t =
      if (Int.floor (Clamp t 0 (s.spline.length : ℚ))).toNat = s.spline.length
      then (s.spline.length - 1, 1)
      else ((Int.floor (Clamp t 0 (s.spline.length : ℚ))).toNat,
        Clamp t 0 (s.spline.length : ℚ) -
          ((Int.floor (Clamp t 0 (s.spline.length : ℚ))).toNat : ℚ)) := rfl

/-- The example spline set starts the distance query on its last segment
with local parameter 1 (the clamp at `9/2` lands past the domain end). -/
lemma evalInit_sexample : evalInit sexample = (1, 1) := by
  unfold evalInit
  rw [Find_eval]
  have hlen : sexample.spline.length = 2 := by norm_num [sexample]
  rw [hlen]
  have hc : Clamp (9/2) 0 ((2 : ℕ) : ℚ) = 2 := by
    unfold Clamp
    norm_num
  rw [hc]
  norm_num
  intro h
  exact absurd rfl h

end Sdf

namespace Sdf

/-! ## Claim theorems -/

/-- C10: `TriDiagonal(m, d)` also fails (panics) whenever the length of
the right-hand-side vector `d` differs from the number of matrix rows of
`m` — a size-mismatch precondition. -/
theorem triDiagonal_size_mismatch (m : List V3) (d : List ℚ)
    (h : d.length ≠ m.length) : TriDiagonal m d = none := by
  unfold TriDiagonal
  rw [if_pos h]

/-- Witness for C10 at a concrete size mismatch. -/
theorem triDiagonal_size_mismatch_witness :
    ([] : List ℚ).length ≠ ([⟨0, 1, 0⟩] : List V3).length ∧
      TriDiagonal [⟨0, 1, 0⟩] [] = none :=
  ⟨by decide, triDiagonal_size_mismatch [⟨0, 1, 0⟩] [] (by decide)⟩

/-- C8: `CubicSpline2D` fails (panics) for every knot list of length 0 or
1, and for every accepted list of `N ≥ 2` knots it produces a spline set
with exactly `N - 1` segments. -/
theorem cubicSpline2D_knot_count (knot : List V2) :
    (knot.length < 2 → CubicSpline2D knot = none) ∧
    (2 ≤ knot.length → ∃ s, CubicSpline2D knot = some s ∧
      s.spline.length = knot.length - 1) := by
  constructor
  · intro h
    unfold CubicSpline2D
    rw [if_pos h]
  · intro h
    refine ⟨_, cubicSpline2D_some knot h, ?_⟩
    exact mkSegments_length knot _ _

/-- Witness for C8: a singleton knot list is rejected and the example
knots give two segments. -/
theorem cubicSpline2D_knot_count_witness :
    CubicSpline2D [(⟨0, 0⟩ : V2)] = none ∧
      ∃ s, CubicSpline2D kexample = some s ∧ s.spline.length = 2 := by
  constructor
  · exact (cubicSpline2D_knot_count [⟨0, 0⟩]).1 (by norm_num)
  · obtain ⟨s, hs, hl⟩ := (cubicSpline2D_knot_count kexample).2 (by norm_num [kexample])
    refine ⟨s, hs, ?_⟩
    rw [hl]
    norm_num [kexample]

/-- C2 (amended): `Evaluate` begins at the state `Find(n/2)` with the
hardcoded constant `n = 9`: local `t = 1/2` on segment 4 when the set has
at least 5 segments, but for a set of 1 to 4 segments the clamp lands at
the end of the domain and the start state is the last segment with local
`t = 1`. -/
theorem evaluate_initial_guess (s : CubicSplineSDF2) :
    (5 ≤ s.spline.length → evalInit s = (4, 1/2)) ∧
    (1 ≤ s.spline.length → s.spline.length ≤ 4 →
      evalInit s = (s.spline.length - 1, 1)) := by
  constructor
  · intro h5
    unfold evalInit
    rw [Find_eval]
    have hc : Clamp (9/2) 0 (s.spline.length : ℚ) = 9/2 := by
      unfold Clamp
      rw [if_neg (by norm_num), if_neg]
      push_neg
      have h5q : (5 : ℚ) ≤ (s.spline.length : ℚ) := by exact_mod_cast h5
      linarith
    rw [hc]
    have hf : Int.floor ((9 : ℚ)/2) = 4 := by norm_num
    rw [hf]
    have ht : (4 : ℤ).toNat = 4 := rfl
    rw [ht, if_neg (by omega)]
    norm_num
  · intro h1 h4
    unfold evalInit
    rw [Find_eval]
    have hc : Clamp (9/2) 0 (s.spline.length : ℚ) = (s.spline.length : ℚ) := by
      unfold Clamp
      rw [if_neg (by norm_num), if_pos]
      have h4q : (s.spline.length : ℚ) ≤ 4 := by exact_mod_cast h4
      linarith
    rw [hc, Int.floor_natCast, Int.toNat_natCast, if_pos rfl]

/-- C2 counterexample: the constructed two-segment example spline starts
its distance query with local parameter 1, not 0.5. -/
theorem evaluate_initial_guess_counterexample :
    CubicSpline2D kexample = some sexample ∧ (evalInit sexample).2 ≠ 1/2 := by
  refine ⟨kexample_eval, ?_⟩
  rw [evalInit_sexample]
  norm_num

/-- Witness for C2 (amended) at a five-segment and a two-segment set. -/
theorem evaluate_initial_guess_witness :
    evalInit sfive = (4, 1/2) ∧ evalInit sexample = (1, 1) := by
  constructor
  · exact (evaluate_initial_guess sfive).1 (by norm_num [sfive])
  · have h := (evaluate_initial_guess sexample).2 (by norm_num [sexample])
      (by norm_num [sexample])
    rw [h]
    norm_num [sexample]

/-- C9: for every constructed spline set and every 2D query point, the
distance `Evaluate(p)` is greater than or equal to zero. -/
theorem evaluate_nonneg (knot : List V2) (s : CubicSplineSDF2) (p : V2)
    (_h : CubicSpline2D knot = some s) : 0 ≤ Evaluate s p :=
  Real.sqrt_nonneg _

/-- Witness for C9 on the example spline. -/
theorem evaluate_nonneg_witness :
    CubicSpline2D kexample = some sexample ∧ 0 ≤ Evaluate sexample ⟨1, 0⟩ :=
  ⟨kexample_eval, evaluate_nonneg kexample sexample ⟨1, 0⟩ kexample_eval⟩

/-- C5: after `Set(y0, y1, D0, D1)` the polynomial satisfies
`f0(0) = y0`, `f0(1) = y1`, `f1(0) = D0` and `f1(1) = D1`, each within the
epsilon introduced by snapping small coefficients to zero (at most the
number of involved coefficients times `EPSILON` times the pre-snap
coefficient magnitude sum). -/
theorem set_fit_endpoints (y0 y1 D0 D1 : ℚ) :
    |(CubicPolynomial.Set y0 y1 D0 D1).f0 0 - y0| ≤ EPSILON * fitSum y0 y1 D0 D1 ∧
    |(CubicPolynomial.Set y0 y1 D0 D1).f0 1 - y1| ≤
      4 * (EPSILON * fitSum y0 y1 D0 D1) ∧
    |(CubicPolynomial.Set y0 y1 D0 D1).f1 0 - D0| ≤ EPSILON * fitSum y0 y1 D0 D1 ∧
    |(CubicPolynomial.Set y0 y1 D0 D1).f1 1 - D1| ≤
      6 * (EPSILON * fitSum y0 y1 D0 D1) :=
  ⟨Set_f0_zero y0 y1 D0 D1, Set_f0_one y0 y1 D0 D1, Set_f1_zero y0 y1 D0 D1,
    Set_f1_one y0 y1 D0 D1⟩

/-- C6: `NR_Iterate(t, p)` returns `t - d1/d2` with
`d1 = 2(dx·f1x + dy·f1y)` and `d2 = 2(dx·f2x + f1x² + dy·f2y + f1y²)`
(the Go code divides the factor-2-free forms, the identical quotient);
the division is unguarded, and on the degenerate constant-velocity segment
`degSeg` with the query point exactly on the curve the denominator `d2` is
exactly zero. -/
theorem nr_iterate_formula (cs : CubicSpline) (t : ℚ) (p : V2) :
    cs.NR_Iterate t p =
      t - (2 * (((cs.f0 t).X - p.X) * (cs.f1 t).X +
          ((cs.f0 t).Y - p.Y) * (cs.f1 t).Y)) /
        (2 * (((cs.f0 t).X - p.X) * (cs.f2 t).X + (cs.f1 t).X * (cs.f1 t).X +
          ((cs.f0 t).Y - p.Y) * (cs.f2 t).Y + (cs.f1 t).Y * (cs.f1 t).Y)) ∧
    degSeg.f0 (1/2) = ⟨5, 7⟩ ∧
    2 * (((degSeg.f0 (1/2)).X - (5 : ℚ)) * (degSeg.f2 (1/2)).X +
      (degSeg.f1 (1/2)).X * (degSeg.f1 (1/2)).X +
      ((degSeg.f0 (1/2)).Y - (7 : ℚ)) * (degSeg.f2 (1/2)).Y +
      (degSeg.f1 (1/2)).Y * (degSeg.f1 (1/2)).Y) = 0 := by
  refine ⟨?_, ?_, ?_⟩
  · rw [mul_div_mul_left _ _ (two_ne_zero)]
    rfl
  · norm_num [degSeg, CubicSpline.f0, CubicSpline.f1, CubicSpline.f2,
      CubicPolynomial.f0, CubicPolynomial.f1, CubicPolynomial.f2]
  · norm_num [degSeg, CubicSpline.f0, CubicSpline.f1, CubicSpline.f2,
      CubicPolynomial.f0, CubicPolynomial.f1, CubicPolynomial.f2]

end Sdf

namespace Sdf

/-- C1 (code-bug evidence): on the constructed two-segment example spline
with query point `(100, 0)`, the loop of `Evaluate` starts on the true
last segment, the Newton step yields local `t = 405/13 > 1`, yet the loop
does not clamp-and-stop: the Go code compares the segment index against
the hardcoded `9 - 1` (the comment `// len(s.spline)` records the
intent), so it re-locates through `Find` and keeps iterating
(`break` flag `false`). -/
theorem evaluate_last_segment_no_stop :
    CubicSpline2D kexample = some sexample ∧
    sexample.spline.length = 2 ∧
    evalInit sexample = (1, 1) ∧
    1 < (segAt sexample 1).NR_Iterate 1 ⟨100, 0⟩ ∧
    evalStep sexample ⟨100, 0⟩ (1, 1) = ((1, 1), false) := by
  have hseg : segAt sexample 1 =
      ⟨1, ⟨1, 1⟩, ⟨2, 0⟩, ⟨1, 1, 0, 0⟩, ⟨1, 0, -(3/2), 1/2⟩⟩ := by
    norm_num [segAt, sexample, List.getD]
  have hnr : CubicSpline.NR_Iterate
      ⟨1, ⟨1, 1⟩, ⟨2, 0⟩, ⟨1, 1, 0, 0⟩, ⟨1, 0, -(3/2), 1/2⟩⟩ 1 ⟨100, 0⟩ = 405/13 := by
    norm_num [CubicSpline.NR_Iterate, CubicSpline.f0, CubicSpline.f1, CubicSpline.f2,
      CubicPolynomial.f0, CubicPolynomial.f1, CubicPolynomial.f2]
  have hfind : sexample.Find (418/13) = (1, 1) := by
    rw [Find_eval]
    have hlen : sexample.spline.length = 2 := by norm_num [sexample]
    rw [hlen]
    have hc : Clamp (418/13) 0 ((2 : ℕ) : ℚ) = 2 := by
      unfold Clamp
      norm_num
    rw [hc]
    norm_num
    intro h
    exact absurd rfl h
  refine ⟨kexample_eval, by norm_num [sexample], evalInit_sexample, ?_, ?_⟩
  · rw [hseg, hnr]
    norm_num
  · unfold evalStep
    norm_num [hseg, hnr, hfind]

/-- C4: for every accepted knot list, the second derivative of the first
segment at `t = 0` is exactly zero and the second derivative of the last
segment at `t = 1` is zero within the snapping epsilon, following from the
end rows `(0,2,1)` and `(1,2,0)` of the tridiagonal system. -/
theorem natural_boundary_second_derivative (knot : List V2) (s : CubicSplineSDF2)
    (h : CubicSpline2D knot = some s) :
    (s.spline.getD 0 segDefault).px.f2 0 = 0 ∧
    (s.spline.getD 0 segDefault).py.f2 0 = 0 ∧
    |(s.spline.getD (knot.length - 2) segDefault).px.f2 1| ≤
      8 * (EPSILON * fitSum (knot.getD (knot.length - 2) v2z).X
        (knot.getD (knot.length - 1) v2z).X
        (dvX knot (knot.length - 2)) (dvX knot (knot.length - 1))) ∧
    |(s.spline.getD (knot.length - 2) segDefault).py.f2 1| ≤
      8 * (EPSILON * fitSum (knot.getD (knot.length - 2) v2z).Y
        (knot.getD (knot.length - 1) v2z).Y
        (dvY knot (knot.length - 2)) (dvY knot (knot.length - 1))) := by
  obtain ⟨hn, hs⟩ := cubicSpline2D_inv knot s h
  have hsp : s.spline = mkSegments knot (splineDerivsX knot) (splineDerivsY knot) := by
    rw [hs]
  rw [hsp, mkSegments_getD knot _ _ 0 (by omega),
    mkSegments_getD knot _ _ (knot.length - 2) (by omega),
    show knot.length - 2 + 1 = knot.length - 1 from by omega]
  refine ⟨?_, ?_, ?_, ?_⟩
  · exact Set_f2_zero_eq _ _ _ _ (by
      have := natural_rowX_zero knot hn
      unfold dvX at this
      show 3 * ((knot.getD 1 v2z).X - (knot.getD 0 v2z).X) -
        2 * (splineDerivsX knot).getD 0 0 - (splineDerivsX knot).getD 1 0 = 0
      linarith)
  · exact Set_f2_zero_eq _ _ _ _ (by
      have := natural_rowY_zero knot hn
      unfold dvY at this
      show 3 * ((knot.getD 1 v2z).Y - (knot.getD 0 v2z).Y) -
        2 * (splineDerivsY knot).getD 0 0 - (splineDerivsY knot).getD 1 0 = 0
      linarith)
  · exact Set_f2_one_bound _ _ _ _ (by
      have := natural_rowX_last knot hn
      unfold dvX at this
      linarith)
  · exact Set_f2_one_bound _ _ _ _ (by
      have := natural_rowY_last knot hn
      unfold dvY at this
      linarith)

/-- Witness for C4 on the example spline. -/
theorem natural_boundary_second_derivative_witness :
    CubicSpline2D kexample = some sexample ∧
    (sexample.spline.getD 0 segDefault).px.f2 0 = 0 ∧
    (sexample.spline.getD 0 segDefault).py.f2 0 = 0 ∧
    |(sexample.spline.getD (kexample.length - 2) segDefault).px.f2 1| ≤
      8 * (EPSILON * fitSum (kexample.getD (kexample.length - 2) v2z).X
        (kexample.getD (kexample.length - 1) v2z).X
        (dvX kexample (kexample.length - 2)) (dvX kexample (kexample.length - 1))) ∧
    |(sexample.spline.getD (kexample.length - 2) segDefault).py.f2 1| ≤
      8 * (EPSILON * fitSum (kexample.getD (kexample.length - 2) v2z).Y
        (kexample.getD (kexample.length - 1) v2z).Y
        (dvY kexample (kexample.length - 2)) (dvY kexample (kexample.length - 1))) :=
  ⟨kexample_eval, natural_boundary_second_derivative kexample sexample kexample_eval⟩

/-- C3: for every accepted knot list and every interior knot index, the
first derivative vector of segment `i-1` at local `t = 1` equals that of
segment `i` at local `t = 0` within the snapping epsilon (both fits share
the solved knot derivative, and snapping moves each side by at most a few
`EPSILON` times its coefficient magnitude sum). -/
theorem spline_c1_continuity (knot : List V2) (s : CubicSplineSDF2) (i : ℕ)
    (h : CubicSpline2D knot = some s) (h0 : 0 < i) (h1 : i + 1 < knot.length) :
    |(s.spline.getD (i - 1) segDefault).px.f1 1 -
        (s.spline.getD i segDefault).px.f1 0| ≤
      6 * (EPSILON * fitSum (knot.getD (i - 1) v2z).X (knot.getD i v2z).X
        (dvX knot (i - 1)) (dvX knot i)) +
      EPSILON * fitSum (knot.getD i v2z).X (knot.getD (i + 1) v2z).X
        (dvX knot i) (dvX knot (i + 1)) ∧
    |(s.spline.getD (i - 1) segDefault).py.f1 1 -
        (s.spline.getD i segDefault).py.f1 0| ≤
      6 * (EPSILON * fitSum (knot.getD (i - 1) v2z).Y (knot.getD i v2z).Y
        (dvY knot (i - 1)) (dvY knot i)) +
      EPSILON * fitSum (knot.getD i v2z).Y (knot.getD (i + 1) v2z).Y
        (dvY knot i) (dvY knot (i + 1)) := by
  obtain ⟨hn, hs⟩ := cubicSpline2D_inv knot s h
  have hsp : s.spline = mkSegments knot (splineDerivsX knot) (splineDerivsY knot) := by
    rw [hs]
  rw [hsp, mkSegments_getD knot _ _ (i - 1) (by omega),
    mkSegments_getD knot _ _ i (by omega),
    show i - 1 + 1 = i from by omega]
  constructor
  · refine le_trans (abs_sub_le _ (dvX knot i) _) ?_
    have t1 := Set_f1_one (knot.getD (i - 1) v2z).X (knot.getD i v2z).X
      (dvX knot (i - 1)) (dvX knot i)
    have t2 : |dvX knot i -
        (CubicPolynomial.Set (knot.getD i v2z).X (knot.getD (i + 1) v2z).X
          (dvX knot i) (dvX knot (i + 1))).f1 0| ≤
        EPSILON * fitSum (knot.getD i v2z).X (knot.getD (i + 1) v2z).X
          (dvX knot i) (dvX knot (i + 1)) := by
      rw [abs_sub_comm]
      exact Set_f1_zero _ _ _ _
    exact add_le_add t1 t2
  · refine le_trans (abs_sub_le _ (dvY knot i) _) ?_
    have t1 := Set_f1_one (knot.getD (i - 1) v2z).Y (knot.getD i v2z).Y
      (dvY knot (i - 1)) (dvY knot i)
    have t2 : |dvY knot i -
        (CubicPolynomial.Set (knot.getD i v2z).Y (knot.getD (i + 1) v2z).Y
          (dvY knot i) (dvY knot (i + 1))).f1 0| ≤
        EPSILON * fitSum (knot.getD i v2z).Y (knot.getD (i + 1) v2z).Y
          (dvY knot i) (dvY knot (i + 1)) := by
      rw [abs_sub_comm]
      exact Set_f1_zero _ _ _ _
    exact add_le_add t1 t2

/-- Witness for C3 at the interior knot of the example spline. -/
theorem spline_c1_continuity_witness :
    CubicSpline2D kexample = some sexample ∧
    |(sexample.spline.getD 0 segDefault).px.f1 1 -
        (sexample.spline.getD 1 segDefault).px.f1 0| ≤
      6 * (EPSILON * fitSum (kexample.getD 0 v2z).X (kexample.getD 1 v2z).X
        (dvX kexample 0) (dvX kexample 1)) +
      EPSILON * fitSum (kexample.getD 1 v2z).X (kexample.getD 2 v2z).X
        (dvX kexample 1) (dvX kexample 2) := by
  refine ⟨kexample_eval, ?_⟩
  have h := (spline_c1_continuity kexample sexample 1 kexample_eval
    (by norm_num) (by norm_num [kexample])).1
  exact h

/-- C7: for a nonempty matrix with matching sizes, `TriDiagonal` fails
(panics) exactly when the sub-diagonal of row 0 is nonzero, or the
super-diagonal of the last row is nonzero, or the main diagonal of row 0
is zero, or some forward-elimination denominator is exactly zero; when
none of these hold it returns, without panicking, a vector of the input
length that solves `M·x = d`.  (The row-0/last-row conditions presuppose
at least one row; the empty matrix and a size mismatch panic separately
through out-of-range indexing and the size check.) -/
theorem triDiagonal_contract (m : List V3) (d : List ℚ) (hne : m ≠ [])
    (hlen : d.length = m.length) :
    (TriDiagonal m d = none ↔ TriDiagonalFails m) ∧
    ∀ x, TriDiagonal m d = some x → x.length = m.length ∧ solvesTriDiag m d x := by
  have hlen0 : m.length ≠ 0 := by
    intro hc
    exact hne (List.length_eq_zero.mp hc)
  constructor
  · constructor
    · intro hnone
      by_contra hfail
      unfold TriDiagonalFails at hfail
      push_neg at hfail
      obtain ⟨f1, f2, f3, f4⟩ := hfail
      have hsome := triDiagonal_eq_some m d hlen hlen0 f1 f2 f3
        ((denomCheck_iff m).mpr f4)
      rw [hsome] at hnone
      exact absurd hnone (by simp)
    · intro hfail
      unfold TriDiagonal
      rw [if_neg (by omega), if_neg hlen0]
      rcases hfail with f | f | f | f
      · rw [if_pos (Or.inl f)]
      · rw [if_pos (Or.inr f)]
      · by_cases c1 : subDiag m 0 ≠ 0 ∨ superDiag m (m.length - 1) ≠ 0
        · rw [if_pos c1]
        · rw [if_neg c1, if_pos f]
      · by_cases c1 : subDiag m 0 ≠ 0 ∨ superDiag m (m.length - 1) ≠ 0
        · rw [if_pos c1]
        · rw [if_neg c1]
          by_cases c2 : mainDiag m 0 = 0
          · rw [if_pos c2]
          · have hdc : ¬ denomCheck m = true := by
              rw [denomCheck_iff]
              push_neg
              obtain ⟨i, hi, hz⟩ := f
              exact ⟨i, hi, by rw [hz]⟩
            rw [if_neg c2, if_neg hdc]
  · intro x hx
    exact triDiagonal_some_solves m d x hx

/-- Witness for C7 on a concrete well-posed 2-row system. -/
theorem triDiagonal_contract_witness :
    ([⟨0, 2, 1⟩, ⟨1, 2, 0⟩] : List V3) ≠ [] ∧
    ([3, 3] : List ℚ).length = ([⟨0, 2, 1⟩, ⟨1, 2, 0⟩] : List V3).length ∧
    ((TriDiagonal [⟨0, 2, 1⟩, ⟨1, 2, 0⟩] [3, 3] = none ↔
        TriDiagonalFails [⟨0, 2, 1⟩, ⟨1, 2, 0⟩]) ∧
      ∀ x, TriDiagonal [⟨0, 2, 1⟩, ⟨1, 2, 0⟩] [3, 3] = some x →
        x.length = ([⟨0, 2, 1⟩, ⟨1, 2, 0⟩] : List V3).length ∧
        solvesTriDiag [⟨0, 2, 1⟩, ⟨1, 2, 0⟩] [3, 3] x) :=
  ⟨by decide, rfl, triDiagonal_contract [⟨0, 2, 1⟩, ⟨1, 2, 0⟩] [3, 3] (by decide) rfl⟩

end Sdf
